import Mathlib

/-
  Verification of the `PythonExecute` code-execution tool
  (app/tool/python_execute.py).

  Shallow embedding.  The tool runs untrusted Python code in a worker
  process spawned with `multiprocessing.Process`; the worker communicates
  one structured result record back through a managed dict.  We model:

  * the result record (`ExecutionResult`), with the initial values the
    parent seeds into the managed dict (line 110 of the source);
  * per-process state (`ProcState`, the process-wide working directory).
    `multiprocessing.Process` gives the worker its own address space and
    its own process-wide working directory, initially a copy of the
    parent's; `os.chdir` inside `_run_code` therefore acts on the child
    copy only.  The embedding passes the parent's `ProcState` into the
    child as a copy and keeps the parent's state separate;
  * the external behaviour of `exec(code, safe_globals, safe_globals)`
    as an oracle (`ExecEnv.execSem`): normal completion (with captured
    stdout/stderr), a raised `Exception` (with partial output, message
    and traceback text), or ending without reaching either branch of
    the try/except (e.g. `SystemExit`, which `except Exception` does not
    catch, or the snippet terminating its own process).  Each outcome
    also records an optional `os.chdir` the snippet performed;
  * `os.path.isdir`, `ast.parse` and traceback texts as oracle fields,
    and whether the worker finished before `proc.join(timeout)` returned
    as the boolean `finishesInTime`.

  `_run_code` (lines 40-77) is embedded as `runCode`/`execStep`, the
  async `execute` (lines 79-132) as the pure function `execute` that
  additionally threads the caller's `ProcState`.
-/

namespace PythonExec

/-- Python `str.strip()`: remove leading and trailing whitespace
    (`String.trim`). -/
def pyStrip (s : String) : String := s.trim

/-- The result record.  Mirrors the managed dict
    `{"stdout", "stderr", "exit_code", "success", "observation"}`. -/
structure ExecutionResult where
  stdout : String
  stderr : String
  exit_code : Int
  success : Bool
  observation : String
deriving DecidableEq, Repr

/-- The initial values the parent seeds into the managed dict
    (line 110): `{"stdout": "", "stderr": "", "exit_code": -1,
    "success": False, "observation": ""}`. -/
def initialResult : ExecutionResult :=
  { stdout := "", stderr := "", exit_code := -1, success := false, observation := "" }

/-- Per-process state: the process-wide current working directory
    (`os.getcwd()` / `os.chdir`). -/
structure ProcState where
  cwd : String
deriving DecidableEq, Repr

/-- Outcome of `exec(code, safe_globals, safe_globals)` inside the worker:
    * `normal out err cd`: the snippet completed; `out`/`err` are the
      contents of the stdout/stderr capture buffers, `cd` an optional
      directory the snippet itself changed into;
    * `raises outPart errPart msg tb cd`: the snippet raised an
      `Exception`; `outPart`/`errPart` are the buffer contents at the
      point of failure, `msg` is `str(e)` and `tb` is
      `traceback.format_exc()`;
    * `exits cd`: the snippet ended the `try` block without completing
      and without raising an `Exception` the handler catches
      (e.g. `SystemExit`/`KeyboardInterrupt`, or terminating the worker
      process outright): the result record is never written. -/
inductive ExecOutcome where
  | normal (out err : String) (cd : Option String)
  | raises (outPart errPart msg tb : String) (cd : Option String)
  | exits (cd : Option String)
deriving DecidableEq, Repr

/-- Oracle for everything the embedding treats as external:
    `isDir` is `os.path.isdir`; `parseResult code` is `ast.parse(code)`
    (`none` on success, `some e` when it raises `SyntaxError e`);
    `parseTb`/`fnfTb` are the `traceback.format_exc()` texts for the
    `SyntaxError` and the `FileNotFoundError`; `execSem code g` gives
    the `ExecOutcome` of running `code` with globals seeded by the name
    list `g`, together with the names bound in those globals
    afterwards. -/
structure ExecEnv where
  isDir : String → Bool
  parseResult : String → Option String
  parseTb : String
  fnfTb : String
  execSem : String → List String → ExecOutcome × List String

/-- Message of the `FileNotFoundError` raised at line 57. -/
def fnfMessage (wd : String) : String :=
  "Specified working_directory '" ++ wd ++ "' does not exist or is not a directory."

/-- The try/except around `exec` (lines 59-72): given the outcome of
    `exec` and the current contents of the result record, produce the
    updated record together with the optional directory the snippet
    changed into.  On `normal`, lines 60-64 write stdout, stderr,
    `exit_code = 0`, `success = True`, `observation = stdout`.  On
    `raises`, lines 65-72 write the partial stdout, the stripped
    concatenation of captured stderr, `str(e)` and the traceback,
    `exit_code = 1`, `success = False`, `observation = stderr`.  On
    `exits` the record is left untouched. -/
def execStep (outcome : ExecOutcome) (result0 : ExecutionResult) :
    ExecutionResult × Option String :=
  match outcome with
  | .normal out err cd =>
      ({ stdout := out, stderr := err, exit_code := 0, success := true,
         observation := out }, cd)
  | .raises outPart errPart msg tb cd =>
      let st := pyStrip (errPart ++ "\n" ++ msg ++ "\n" ++ tb)
      ({ stdout := outPart, stderr := st, exit_code := 1, success := false,
         observation := st }, cd)
  | .exits cd => (result0, cd)

/-- `PythonExecute._run_code` (lines 40-77), run inside the worker
    process on the worker's own `ProcState`.  Returns the result record
    as written into the managed dict and the worker's final state.
    The `finally` block restores the worker's working directory only
    when `cwd_changed_successfully` was set (lines 76-77); a directory
    change made by the snippet itself when no `working_directory` was
    supplied is not undone (the worker dies right after anyway). -/
def runCode (env : ExecEnv) (outcome : ExecOutcome)
    (working_directory : Option String)
    (result0 : ExecutionResult) (child : ProcState) :
    ExecutionResult × ProcState :=
  let original_cwd := child.cwd
  match working_directory with
  | none =>
      let r := execStep outcome result0
      (r.fst, { cwd := r.snd.getD original_cwd })
  | some wd =>
      if env.isDir wd then
        let r := execStep outcome result0
        (r.fst, { cwd := original_cwd })
      else
        let st := pyStrip ("" ++ "\n" ++ fnfMessage wd ++ "\n" ++ env.fnfTb)
        ({ stdout := "", stderr := st, exit_code := 1, success := false,
           observation := st }, { cwd := original_cwd })

/-- The globals dict built fresh on every call (lines 111-114):
    `safe_globals = {"__builtins__": ...}` contains exactly the one
    name `__builtins__`. -/
def freshSafeGlobals : List String := ["__builtins__"]

/-- The timeout message of lines 128-130. -/
def timeoutMessage (timeout : Nat) (working_directory : Option String) : String :=
  "Execution timeout after " ++ toString timeout ++ " seconds" ++
    match working_directory with
    | some wd => " (in working_directory: '" ++ wd ++ "')"
    | none => ""

/-- `PythonExecute.execute` (lines 79-132), additionally threading the
    caller's process state (which no parent-side statement touches:
    `ast.parse`, `Manager`, `Process`, `start`, `join`, `terminate`
    never change the parent's working directory).  `finishesInTime`
    is true when `proc.join(timeout)` found the worker finished; when
    false, lines 124-131 return the timeout record and the managed
    dict — whatever the worker wrote into it — is discarded. -/
def execute (env : ExecEnv) (code : String) (timeout : Nat)
    (working_directory : Option String) (finishesInTime : Bool)
    (parent : ProcState) : ExecutionResult × ProcState :=
  match env.parseResult code with
  | some e =>
      let error_details := "SyntaxError: " ++ e ++ "\n" ++ env.parseTb
      ({ stdout := "", stderr := error_details, exit_code := 1, success := false,
         observation := error_details }, parent)
  | none =>
      let safe_globals := freshSafeGlobals
      let outcome := (env.execSem code safe_globals).fst
      let childRun := runCode env outcome working_directory initialResult parent
      if finishesInTime then
        (childRun.fst, parent)
      else
        let m := timeoutMessage timeout working_directory
        ({ stdout := "", stderr := m, exit_code := 1, success := false,
           observation := m }, parent)

/-- Shared helper: `execute` returns the caller's process state
    unchanged on every path. -/
theorem execute_snd (env : ExecEnv) (code : String) (timeout : Nat)
    (wd : Option String) (f : Bool) (parent : ProcState) :
    (execute env code timeout wd f parent).snd = parent := by
  unfold execute
  cases env.parseResult code <;> cases f <;> simp

/-- Concrete oracle used by witnesses: code always parses, `exec` ends by
    an uncaught `SystemExit` without writing the result record. -/
def exitsEnv : ExecEnv :=
  { isDir := fun _ => true
    parseResult := fun _ => none
    parseTb := ""
    fnfTb := ""
    execSem := fun _ g => (ExecOutcome.exits none, g) }

/-- C1: for every call to `execute`, the caller's process-wide working
    directory after the call equals the one before it, in every outcome
    class (normal completion, syntax error, runtime exception, invalid
    `working_directory`, timeout) and whatever directory changes the
    executed code performs: the worker's `os.chdir` acts on the worker
    process's own state copy, and no parent-side statement of `execute`
    touches the parent's directory. -/
theorem execute_preserves_caller_cwd (env : ExecEnv) (code : String)
    (timeout : Nat) (wd : Option String) (f : Bool) (parent : ProcState) :
    (execute env code timeout wd f parent).snd.cwd = parent.cwd := by
  rw [execute_snd]

/-- C3: in every result returned by `execute`, `success` is true iff
    `exit_code` equals 0.  This includes the no-write path, where the
    initial record has `success = False` and `exit_code = -1`. -/
theorem success_iff_exit_code_zero (env : ExecEnv) (code : String)
    (timeout : Nat) (wd : Option String) (f : Bool) (parent : ProcState) :
    (execute env code timeout wd f parent).fst.success = true ↔
      (execute env code timeout wd f parent).fst.exit_code = 0 := by
  unfold execute runCode execStep initialResult
  cases hp : env.parseResult code <;> cases f <;> cases wd <;>
    cases ho : (env.execSem code freshSafeGlobals).fst <;>
    simp_all <;> split <;> simp_all

/-- C8: in every result returned by `execute`, `observation` equals
    `stdout` when `success` is true and `stderr` when `success` is
    false (on the no-write path all three are the empty string). -/
theorem observation_alias (env : ExecEnv) (code : String)
    (timeout : Nat) (wd : Option String) (f : Bool) (parent : ProcState) :
    (execute env code timeout wd f parent).fst.observation =
      (if (execute env code timeout wd f parent).fst.success then
        (execute env code timeout wd f parent).fst.stdout
      else (execute env code timeout wd f parent).fst.stderr) := by
  unfold execute runCode execStep initialResult
  cases hp : env.parseResult code <;> cases f <;> cases wd <;>
    cases ho : (env.execSem code freshSafeGlobals).fst <;>
    simp_all <;> split <;> simp_all

/-- C2 counterexample: the claim says `exit_code` is 0 on success and 1
    on any failure, with no other value ever returned.  But when the
    snippet raises `SystemExit` (not caught by `except Exception`), the
    worker ends without writing the result record and the caller
    receives the seeded `exit_code = -1`: here a concrete failing call
    returns an `exit_code` that is neither 0 nor 1. -/
theorem exit_code_counterexample :
    (execute exitsEnv "raise SystemExit" 5 none true
        { cwd := "/home/user" }).fst.exit_code ≠ 0 ∧
    (execute exitsEnv "raise SystemExit" 5 none true
        { cwd := "/home/user" }).fst.exit_code ≠ 1 := by
  constructor <;> decide

/-- C2 (amended): `exit_code` is 0 exactly on success; on failures it is
    1 (syntax error, runtime exception, invalid working directory,
    timeout) except when the worker ends without writing the shared
    result record, in which case the seeded initial value -1 is
    returned; no value other than 0, 1 and -1 ever reaches the
    caller. -/
theorem exit_code_values (env : ExecEnv) (code : String)
    (timeout : Nat) (wd : Option String) (f : Bool) (parent : ProcState) :
    ((execute env code timeout wd f parent).fst.success = true →
      (execute env code timeout wd f parent).fst.exit_code = 0) ∧
    ((execute env code timeout wd f parent).fst.exit_code = 0 ∨
     (execute env code timeout wd f parent).fst.exit_code = 1 ∨
     (execute env code timeout wd f parent).fst.exit_code = -1) := by
  unfold execute runCode execStep initialResult
  cases hp : env.parseResult code <;> cases f <;> cases wd <;>
    cases ho : (env.execSem code freshSafeGlobals).fst <;>
    simp_all <;> split <;> simp_all

/-- Concrete oracle used by witnesses: every code string is rejected by
    `ast.parse` with message "invalid syntax (line 1)". -/
def parseFailEnv : ExecEnv :=
  { isDir := fun _ => true
    parseResult := fun _ => some "invalid syntax (line 1)"
    parseTb := "Traceback (most recent call last): ..."
    fnfTb := ""
    execSem := fun _ g => (ExecOutcome.normal "" "" none, g) }

/-- Concrete oracle used by witnesses: code parses, `exec` raises a
    `ZeroDivisionError` after printing "before". -/
def raisesEnv : ExecEnv :=
  { isDir := fun _ => true
    parseResult := fun _ => none
    parseTb := ""
    fnfTb := "Traceback (most recent call last): ..."
    execSem := fun _ g =>
      (ExecOutcome.raises "before\n" "" "division by zero"
        "Traceback (most recent call last): ..." none, g) }

/-- Concrete oracle used by witnesses: code parses, no path is a
    directory, `exec` would complete normally if reached. -/
def noDirEnv : ExecEnv :=
  { isDir := fun _ => false
    parseResult := fun _ => none
    parseTb := ""
    fnfTb := "Traceback (most recent call last): ..."
    execSem := fun _ g => (ExecOutcome.normal "ran\n" "" none, g) }

/-- Concrete oracle used by witnesses: code parses, `exec` completes
    normally and binds the additional name `x` in its globals. -/
def defineXEnv : ExecEnv :=
  { isDir := fun _ => true
    parseResult := fun _ => none
    parseTb := ""
    fnfTb := ""
    execSem := fun _ g => (ExecOutcome.normal "" "" none, "x" :: g) }

/-- C4: when the worker has not finished within `timeout` seconds
    (`proc.join(timeout)` leaves it alive), `execute` returns
    `exit_code = 1`, `success = False`, `stderr` and `observation` both
    the timeout message — which states the duration and, when supplied,
    the working directory — and `stdout = ""`: whatever the worker wrote
    into the managed dict is discarded (the returned record never reads
    it). -/
theorem timeout_result (env : ExecEnv) (code : String) (timeout : Nat)
    (wd : Option String) (parent : ProcState)
    (hp : env.parseResult code = none) :
    (execute env code timeout wd false parent).fst =
      { stdout := "", stderr := timeoutMessage timeout wd, exit_code := 1,
        success := false, observation := timeoutMessage timeout wd } := by
  unfold execute
  simp [hp]

/-- Witness for C4 at a concrete call. -/
theorem timeout_result_witness :
    (execute exitsEnv "while True: pass" 5 none false { cwd := "/home/user" }).fst =
      { stdout := "", stderr := timeoutMessage 5 none, exit_code := 1,
        success := false, observation := timeoutMessage 5 none } :=
  timeout_result exitsEnv "while True: pass" 5 none { cwd := "/home/user" } rfl

/-- C5: when `ast.parse` rejects `code` with `SyntaxError` message `e`,
    `execute` returns — before any worker is spawned, so independently
    of the exec oracle, the directory oracle and the timeout — the
    record with `exit_code = 1`, `success = False`, `stdout = ""` and
    `stderr = observation` carrying the syntax error message. -/
theorem parse_error_result (env : ExecEnv) (code : String) (timeout : Nat)
    (wd : Option String) (f : Bool) (parent : ProcState) (e : String)
    (hp : env.parseResult code = some e) :
    (execute env code timeout wd f parent).fst =
      { stdout := "", stderr := "SyntaxError: " ++ e ++ "\n" ++ env.parseTb,
        exit_code := 1, success := false,
        observation := "SyntaxError: " ++ e ++ "\n" ++ env.parseTb } := by
  unfold execute
  simp [hp]

/-- Witness for C5 at a concrete call. -/
theorem parse_error_result_witness :
    (execute parseFailEnv "def f(:" 5 none true { cwd := "/home/user" }).fst =
      { stdout := "",
        stderr := "SyntaxError: " ++ "invalid syntax (line 1)" ++ "\n" ++
          parseFailEnv.parseTb,
        exit_code := 1, success := false,
        observation := "SyntaxError: " ++ "invalid syntax (line 1)" ++ "\n" ++
          parseFailEnv.parseTb } :=
  parse_error_result parseFailEnv "def f(:" 5 none true { cwd := "/home/user" }
    "invalid syntax (line 1)" rfl

/-- C6: when `code` parses, the working directory (if supplied) exists,
    and `exec` raises an exception with message `msg` and traceback `tb`
    after producing partial output `outPart`/`errPart`, the worker
    finishing in time yields: `stdout` = the stdout captured before the
    failure, `stderr` = captured stderr concatenated (newline-separated,
    stripped, exactly as line 69 builds it) with the message and the
    traceback, `exit_code = 1`, `success = False`,
    `observation = stderr`. -/
theorem runtime_error_result (env : ExecEnv) (code : String) (timeout : Nat)
    (wd : Option String) (parent : ProcState)
    (outPart errPart msg tb : String) (cd : Option String)
    (hp : env.parseResult code = none)
    (hw : ∀ w, wd = some w → env.isDir w = true)
    (ho : (env.execSem code freshSafeGlobals).fst =
      ExecOutcome.raises outPart errPart msg tb cd) :
    (execute env code timeout wd true parent).fst =
      { stdout := outPart,
        stderr := pyStrip (errPart ++ "\n" ++ msg ++ "\n" ++ tb),
        exit_code := 1, success := false,
        observation := pyStrip (errPart ++ "\n" ++ msg ++ "\n" ++ tb) } := by
  unfold execute runCode execStep
  cases wd with
  | none => simp [hp, ho]
  | some w => simp [hp, ho, hw w rfl]

/-- Witness for C6 at a concrete call. -/
theorem runtime_error_result_witness :
    (execute raisesEnv "print(1); 1/0" 5 none true { cwd := "/home/user" }).fst =
      { stdout := "before\n",
        stderr := pyStrip ("" ++ "\n" ++ "division by zero" ++ "\n" ++
          "Traceback (most recent call last): ..."),
        exit_code := 1, success := false,
        observation := pyStrip ("" ++ "\n" ++ "division by zero" ++ "\n" ++
          "Traceback (most recent call last): ...") } :=
  runtime_error_result raisesEnv "print(1); 1/0" 5 none { cwd := "/home/user" }
    "before\n" "" "division by zero" "Traceback (most recent call last): ..."
    none rfl (fun w h => by cases h) rfl

/-- C7: when `code` parses but the supplied `working_directory` is not
    an existing directory, the worker takes the same `except Exception`
    path as a runtime exception (the `FileNotFoundError` of line 57):
    `success = False`, the same `exit_code = 1` as a runtime exception,
    `stdout = ""` — the snippet's body is never executed, which the
    statement shows by holding for every exec oracle `env.execSem` —
    and `stderr = observation` built by the line-69 formula from a
    diagnostic naming the path. -/
theorem invalid_wd_result (env : ExecEnv) (code : String) (timeout : Nat)
    (w : String) (parent : ProcState)
    (hp : env.parseResult code = none) (hd : env.isDir w = false) :
    (execute env code timeout (some w) true parent).fst =
      { stdout := "",
        stderr := pyStrip ("" ++ "\n" ++ fnfMessage w ++ "\n" ++ env.fnfTb),
        exit_code := 1, success := false,
        observation := pyStrip ("" ++ "\n" ++ fnfMessage w ++ "\n" ++ env.fnfTb) } := by
  unfold execute runCode
  simp [hp, hd]

/-- Witness for C7 at a concrete call. -/
theorem invalid_wd_result_witness :
    (execute noDirEnv "print(1)" 5 (some "/no/such/dir") true
        { cwd := "/home/user" }).fst =
      { stdout := "",
        stderr := pyStrip ("" ++ "\n" ++ fnfMessage "/no/such/dir" ++ "\n" ++
          noDirEnv.fnfTb),
        exit_code := 1, success := false,
        observation := pyStrip ("" ++ "\n" ++ fnfMessage "/no/such/dir" ++ "\n" ++
          noDirEnv.fnfTb) } :=
  invalid_wd_result noDirEnv "print(1)" 5 "/no/such/dir" { cwd := "/home/user" }
    rfl rfl

/-- C9: every call passes `exec` the freshly built `safe_globals`
    (`freshSafeGlobals` by definition of `execute`), which contains only
    `__builtins__`: a name `n` bound by a first call's exec (and distinct
    from `__builtins__`) is absent from the globals of any later call,
    and a second call returns the same result after the first call as it
    would without it — the two calls share no state. -/
theorem no_state_leakage (env : ExecEnv) (c1 c2 : String) (t1 t2 : Nat)
    (wd1 wd2 : Option String) (f1 f2 : Bool) (parent : ProcState) (n : String)
    (_hdef : n ∈ (env.execSem c1 freshSafeGlobals).snd)
    (hb : n ≠ "__builtins__") :
    n ∉ freshSafeGlobals ∧
    (execute env c2 t2 wd2 f2 (execute env c1 t1 wd1 f1 parent).snd).fst =
      (execute env c2 t2 wd2 f2 parent).fst := by
  refine ⟨?_, by rw [execute_snd]⟩
  simp [freshSafeGlobals, hb]

/-- Witness for C9 at a concrete pair of calls. -/
theorem no_state_leakage_witness :
    "x" ∉ freshSafeGlobals ∧
    (execute defineXEnv "print(x)" 5 none true
        (execute defineXEnv "x = 1" 5 none true { cwd := "/home/user" }).snd).fst =
      (execute defineXEnv "print(x)" 5 none true { cwd := "/home/user" }).fst :=
  no_state_leakage defineXEnv "x = 1" "print(x)" 5 5 none none true true
    { cwd := "/home/user" } "x" (by simp [defineXEnv, freshSafeGlobals])
    (by decide)

/-- C10: when `code` parses, the working directory (if supplied) exists,
    and the worker ends within the timeout without the try/except of
    `_run_code` writing the result record (`exec` ends by an uncaught
    `SystemExit` or by terminating the worker process), `execute`
    returns the record's seeded initial values: empty `stdout`,
    `stderr` and `observation`, `exit_code = -1`, `success = False`. -/
theorem no_write_initial_result (env : ExecEnv) (code : String) (timeout : Nat)
    (wd : Option String) (parent : ProcState) (cd : Option String)
    (hp : env.parseResult code = none)
    (hw : ∀ w, wd = some w → env.isDir w = true)
    (ho : (env.execSem code freshSafeGlobals).fst = ExecOutcome.exits cd) :
    (execute env code timeout wd true parent).fst =
      { stdout := "", stderr := "", exit_code := -1, success := false,
        observation := "" } := by
  unfold execute runCode execStep initialResult
  cases wd with
  | none => simp [hp, ho]
  | some w => simp [hp, ho, hw w rfl]

/-- Witness for C10 at a concrete call. -/
theorem no_write_initial_result_witness :
    (execute exitsEnv "raise SystemExit(0)" 5 none true
        { cwd := "/home/user" }).fst =
      { stdout := "", stderr := "", exit_code := -1, success := false,
        observation := "" } :=
  no_write_initial_result exitsEnv "raise SystemExit(0)" 5 none
    { cwd := "/home/user" } none rfl (fun w h => by cases h) rfl

end PythonExec
